import Mathlib

/-!
# Verification of the realtime gateway core

A shallow embedding of the per-connection engine of the repository:
the conversation-identity scheme (`src/conversation_id.rs`, `src/hash.rs`),
the operation codec (`src/connection/operation_loop/{operation,query,mutation}.rs`),
the operation loop and its per-operation effect fan-out
(`src/connection/operation_loop.rs`), the notification loop
(`src/connection/notification_loop.rs`), and the connection supervisor
(`src/connection.rs`).

Modelling conventions:
* Rust byte-slicing `&s[a..b]` is embedded as `byteSlice`, which returns
  `none` exactly when the Rust expression would panic (range beyond the end
  of the string, or an endpoint that is not a UTF-8 character boundary).
* `hash::base64_encoded_md5_hash_with_secret` reads the runtime environment
  variable `CONVERSATION_ID_SECRET` and computes a truncated base64-encoded
  MD5 digest; it is embedded as an explicit function parameter
  `h : String → String` threaded through every definition that calls it.
* `chrono::DateTime<Utc>` is embedded as `DTime`, milliseconds since the Unix
  epoch; `DTime.default` is `DateTime::default()` (the epoch). The calendar
  accessors `year/month/day/hour` follow the proleptic-Gregorian
  civil-from-days computation that chrono implements.
* Functions that can panic in Rust (`&s[a..b]`, `todo!()`) return `Option`,
  with `none` marking the panic.
-/

/-- Total UTF-8 byte length of a character list (`str::len` on the Rust side). -/
def utf8Len : List Char → Nat
  | [] => 0
  | c :: cs => c.utf8Size + utf8Len cs

/-- Take the first `n` BYTES of a character list. `none` when `n` overruns the
list or falls inside a multi-byte character — the cases in which the Rust
slice `&s[0..n]` panics. -/
def takeBytes (cs : List Char) (n : Nat) : Option (List Char) :=
  if n = 0 then some [] else
    match cs with
    | [] => none
    | c :: cs' =>
      if c.utf8Size ≤ n then (takeBytes cs' (n - c.utf8Size)).map (c :: ·) else none

/-- Drop the first `n` BYTES of a character list; `none` in the same cases in
which `takeBytes` fails. -/
def dropBytes (cs : List Char) (n : Nat) : Option (List Char) :=
  if n = 0 then some cs else
    match cs with
    | [] => none
    | c :: cs' =>
      if c.utf8Size ≤ n then dropBytes cs' (n - c.utf8Size) else none

/-- The Rust byte slice `&s[lo..hi]`: `none` exactly when Rust panics. -/
def byteSlice (s : String) (lo hi : Nat) : Option String :=
  (dropBytes s.data lo).bind (fun rest => (takeBytes rest (hi - lo)).map String.mk)

/-- `lo` is a valid byte index of `s` lying on a UTF-8 character boundary
(Rust's `str::is_char_boundary`). -/
def isCharBoundary (s : String) (n : Nat) : Prop := (dropBytes s.data n).isSome

instance (s : String) (n : Nat) : Decidable (isCharBoundary s n) := by
  unfold isCharBoundary; infer_instance

/-! ## Time (`chrono::DateTime<Utc>`) -/

/-- Milliseconds since the Unix epoch: the information content of a
`chrono::DateTime<Utc>` at the precision this program uses. -/
structure DTime where
  millis : Int
deriving DecidableEq, Repr

/-- `DateTime::<Utc>::default()`: the Unix epoch. -/
def DTime.default : DTime := ⟨0⟩

/-- Days since the epoch (floor division, as chrono computes). -/
def DTime.days (t : DTime) : Int := t.millis.fdiv 86400000

/-- Proleptic-Gregorian `(year, month, day)` from a day count
(the civil-from-days computation chrono's calendar accessors realize). -/
def civilFromDays (days : Int) : Int × Int × Int :=
  let z := days + 719468
  let era := z.fdiv 146097
  let doe := z - era * 146097
  let yoe := (doe - doe / 1460 + doe / 36524 - doe / 146096) / 365
  let y := yoe + era * 400
  let doy := doe - (365 * yoe + yoe / 4 - yoe / 100)
  let mp := (5 * doy + 2) / 153
  let d := doy - (153 * mp + 2) / 5 + 1
  let m := mp + (if mp < 10 then 3 else -9)
  (y + (if m ≤ 2 then 1 else 0), m, d)

/-- `DateTime::year()`. -/
def DTime.year (t : DTime) : Int := (civilFromDays t.days).1

/-- `DateTime::month()`. -/
def DTime.month (t : DTime) : Int := (civilFromDays t.days).2.1

/-- `DateTime::day()`. -/
def DTime.day (t : DTime) : Int := (civilFromDays t.days).2.2

/-- `DateTime::hour()`. -/
def DTime.hour (t : DTime) : Int := (t.millis.fdiv 3600000).emod 24

/-! ## ConversationId (`src/conversation_id.rs`) -/

inductive ConversationRole where
  | chooser
  | choosee
  | notInConversation
deriving DecidableEq, Repr

/-- `ConversationId { inner: String }`. -/
structure ConversationId where
  inner : String
deriving DecidableEq, Repr

/-- The `time_segment` built inside `ConversationId::new`:
`(now.year() % 100) ++ now.month() ++ now.day() ++ now.hour()`,
decimal renderings concatenated without separators. -/
def timeSegment (t : DTime) : String :=
  toString (t.year % 100) ++ toString t.month ++ toString t.day ++ toString t.hour

/-- `ConversationId::new(chooser_username, choosee_username)`. The source
computes the segment from `DateTime::default()`, not from the current time.
`h` embeds `hash::base64_encoded_md5_hash_with_secret`. -/
def ConversationId.new (h : String → String) (chooser_username choosee_username : String) :
    ConversationId :=
  ⟨h chooser_username ++ h choosee_username ++ timeSegment DTime.default⟩

/-- `ConversationId::from(string)`: no validation, the string is stored as is. -/
def ConversationId.from (string : String) : ConversationId := ⟨string⟩

/-- `ConversationId::to_string()`. -/
def ConversationId.asString (c : ConversationId) : String := c.inner

/-- `ConversationId::get_chooser_hash()`: the byte slice `&inner[0..22]`;
`none` when the slice panics. -/
def ConversationId.get_chooser_hash (c : ConversationId) : Option String :=
  byteSlice c.inner 0 22

/-- `ConversationId::get_choosee_hash()`: the byte slice `&inner[22..44]`;
`none` when the slice panics. -/
def ConversationId.get_choosee_hash (c : ConversationId) : Option String :=
  byteSlice c.inner 22 44

/-- `ConversationId::get_role_of_username(username)`: slices both hash slots
(in source order) and compares the username's hash first against the chooser
slot, then the choosee slot. `none` when either slice panics. -/
def ConversationId.get_role_of_username (h : String → String) (c : ConversationId)
    (username : String) : Option ConversationRole := do
  let chooser_hash ← c.get_chooser_hash
  let choosee_hash ← c.get_choosee_hash
  let username_hash := h username
  pure (if chooser_hash = username_hash then ConversationRole.chooser
    else if choosee_hash = username_hash then ConversationRole.choosee
    else ConversationRole.notInConversation)

/-! ## JSON codec (`operation.rs`, `query.rs`, `mutation.rs`, `user_event.rs`)

The serde derives determine a mapping between Rust values and JSON values;
the embedding works at the level of a JSON value tree (`Json`), leaving the
byte-level rendering to `serde_json`. All four enums use adjacent tagging
`#[serde(tag = "op", content = "d", rename_all = "camelCase")]` — the
`rename_all` on an enum renames its variants — and `Operation` itself is
`#[serde(untagged)]`, so its decoder tries `Query` first, then `Mutation`.
`chrono`'s string codec for `DateTime<Utc>` is external to the repository and
is threaded as an explicit `DtCodec` parameter. -/

inductive Json where
  | str (s : String)
  | int (n : Int)
  | bool (b : Bool)
  | arr (xs : List Json)
  | obj (fields : List (String × Json))

/-- Rust `i8` (the type of `take`). -/
def I8 : Type := { n : Int // -128 ≤ n ∧ n ≤ 127 }

instance : DecidableEq I8 := fun a b =>
  decidable_of_iff (a.val = b.val) Subtype.ext_iff.symm

/-- The (external) chrono serde codec for `DateTime<Utc>`. -/
structure DtCodec where
  render : DTime → String
  dtparse : String → Option DTime

/-- `Query` (`query.rs`). -/
inductive Query where
  | messages (conversation_id : String) (take : I8) (after_sent_at : DTime)
deriving DecidableEq

/-- `Mutation` (`mutation.rs`). -/
inductive Mutation where
  | choose (content : String) (choosee_username : String)
  | send (content : String) (conversation_id : String)
  | registerPresenceChoosee (conversation_id : String) (leaving : Bool)
deriving DecidableEq

/-- `Operation` (`operation.rs`): untagged union of `Query` and `Mutation`. -/
inductive Operation where
  | query (q : Query)
  | mutation (m : Mutation)
deriving DecidableEq

/-- `UserEvent` (`user_event.rs`). -/
inductive UserEvent where
  | chosen (conversation_id : String) (content : String) (sent_at : DTime)
  | message (conversation_id : String) (content : String) (sent_at : DTime)
  | chooseePresence (conversation_id : String) (leaving : Bool) (occurred_at : DTime)
deriving DecidableEq

/-- Serialization of `Query` determined by its serde attributes
(tag `"op"`, content `"d"`, camelCase variant names, declaration-order
snake_case fields). -/
def encodeQuery (dtc : DtCodec) : Query → Json
  | .messages conversation_id take after_sent_at =>
    .obj [("op", .str "messages"),
          ("d", .obj [("conversation_id", .str conversation_id),
                      ("take", .int take.val),
                      ("after_sent_at", .str (dtc.render after_sent_at))])]

/-- `Query`'s derived `Deserialize`. -/
def decodeQuery (dtc : DtCodec) : Json → Option Query
  | .obj fields =>
    match fields.lookup "op", fields.lookup "d" with
    | some (.str "messages"), some (.obj d) =>
      match d.lookup "conversation_id", d.lookup "take", d.lookup "after_sent_at" with
      | some (.str conversation_id), some (.int t), some (.str a) =>
        if h : -128 ≤ t ∧ t ≤ 127 then
          (dtc.dtparse a).map (fun after_sent_at => .messages conversation_id ⟨t, h⟩ after_sent_at)
        else none
      | _, _, _ => none
    | _, _ => none
  | _ => none

/-- `Mutation`'s derived `Serialize`. -/
def encodeMutation (_dtc : DtCodec) : Mutation → Json
  | .choose content choosee_username =>
    .obj [("op", .str "choose"),
          ("d", .obj [("content", .str content),
                      ("choosee_username", .str choosee_username)])]
  | .send content conversation_id =>
    .obj [("op", .str "send"),
          ("d", .obj [("content", .str content),
                      ("conversation_id", .str conversation_id)])]
  | .registerPresenceChoosee conversation_id leaving =>
    .obj [("op", .str "registerPresenceChoosee"),
          ("d", .obj [("conversation_id", .str conversation_id),
                      ("leaving", .bool leaving)])]

/-- `Mutation`'s derived `Deserialize`. -/
def decodeMutation (_dtc : DtCodec) : Json → Option Mutation
  | .obj fields =>
    match fields.lookup "op", fields.lookup "d" with
    | some (.str "choose"), some (.obj d) =>
      match d.lookup "content", d.lookup "choosee_username" with
      | some (.str content), some (.str choosee_username) =>
        some (.choose content choosee_username)
      | _, _ => none
    | some (.str "send"), some (.obj d) =>
      match d.lookup "content", d.lookup "conversation_id" with
      | some (.str content), some (.str conversation_id) =>
        some (.send content conversation_id)
      | _, _ => none
    | some (.str "registerPresenceChoosee"), some (.obj d) =>
      match d.lookup "conversation_id", d.lookup "leaving" with
      | some (.str conversation_id), some (.bool leaving) =>
        some (.registerPresenceChoosee conversation_id leaving)
      | _, _ => none
    | _, _ => none
  | _ => none

/-- `Operation`'s serialization: `#[serde(untagged)]` forwards to the inner
variant's serializer. -/
def encodeOperation (dtc : DtCodec) : Operation → Json
  | .query q => encodeQuery dtc q
  | .mutation m => encodeMutation dtc m

/-- `Operation::from_str`'s value-level part: untagged deserialization tries
`Query` first, then `Mutation` (declaration order). -/
def decodeOperation (dtc : DtCodec) (j : Json) : Option Operation :=
  match decodeQuery dtc j with
  | some q => some (.query q)
  | none => (decodeMutation dtc j).map .mutation

/-- `UserEvent`'s derived `Serialize` (used by `to_vec` / `to_string`). -/
def encodeUserEvent (dtc : DtCodec) : UserEvent → Json
  | .chosen conversation_id content sent_at =>
    .obj [("op", .str "chosen"),
          ("d", .obj [("conversation_id", .str conversation_id),
                      ("content", .str content),
                      ("sent_at", .str (dtc.render sent_at))])]
  | .message conversation_id content sent_at =>
    .obj [("op", .str "message"),
          ("d", .obj [("conversation_id", .str conversation_id),
                      ("content", .str content),
                      ("sent_at", .str (dtc.render sent_at))])]
  | .chooseePresence conversation_id leaving occurred_at =>
    .obj [("op", .str "chooseePresence"),
          ("d", .obj [("conversation_id", .str conversation_id),
                      ("leaving", .bool leaving),
                      ("occurred_at", .str (dtc.render occurred_at))])]

/-- `UserEvent::from_slice`'s value-level part. -/
def decodeUserEvent (dtc : DtCodec) : Json → Option UserEvent
  | .obj fields =>
    match fields.lookup "op", fields.lookup "d" with
    | some (.str "chosen"), some (.obj d) =>
      match d.lookup "conversation_id", d.lookup "content", d.lookup "sent_at" with
      | some (.str conversation_id), some (.str content), some (.str s) =>
        (dtc.dtparse s).map (.chosen conversation_id content ·)
      | _, _, _ => none
    | some (.str "message"), some (.obj d) =>
      match d.lookup "conversation_id", d.lookup "content", d.lookup "sent_at" with
      | some (.str conversation_id), some (.str content), some (.str s) =>
        (dtc.dtparse s).map (.message conversation_id content ·)
      | _, _, _ => none
    | some (.str "chooseePresence"), some (.obj d) =>
      match d.lookup "conversation_id", d.lookup "leaving", d.lookup "occurred_at" with
      | some (.str conversation_id), some (.bool leaving), some (.str s) =>
        (dtc.dtparse s).map (.chooseePresence conversation_id leaving ·)
      | _, _, _ => none
    | _, _ => none
  | _ => none

/-! ## Frames and the error taxonomy (`connection/error.rs`) -/

/-- `tungstenite::protocol::frame::coding::CloseCode`, collapsed to the three
classes the `match` in `OperationLoop::handle` distinguishes: `Normal`,
`Away`, and everything else. -/
inductive CloseCode where
  | normal
  | away
  | other (code : Nat)
deriving DecidableEq, Repr

/-- `tungstenite::protocol::CloseFrame`. -/
structure CloseFrame where
  code : CloseCode
  reason : String
deriving DecidableEq, Repr

/-- `tungstenite::Message`. A text frame carries the result of parsing its
text as a JSON value (`none` when the text is not JSON); everything the
`match` sends to its `_` arm (binary, ping, pong, raw frames) is kept as a
distinct constructor. -/
inductive Frame where
  | text (payload : Option Json)
  | binary
  | ping
  | pong
  | close (close_frame : Option CloseFrame)

/-- `NonFatalConnectionError`. Error payloads (`DatabaseError`,
`serde_json::Error`, `std::io::Error`) are carried as their display strings. -/
inductive NonFatalConnectionError where
  | databaseError (msg : String)
  | unsupportedFormat (msg : String)
  | natsPublishError (msg : String)

/-- `FatalConnectionError`. `unexpectedClose` keeps the offending close frame
(the source stores its `to_string()` rendering); `unsupportedProtocol` keeps
the offending message. -/
inductive FatalConnectionError where
  | webSocketError (msg : String)
  | unexpectedClose (close_frame : CloseFrame)
  | natsSubscribeError (msg : String)
  | unexpectedNatsSubscriptionTerminate
  | unsupportedProtocol (message : Frame)
  | forbidden (msg : String)

/-- `ConnectionError`. -/
inductive ConnectionError where
  | fatal (e : FatalConnectionError)
  | nonFatal (e : NonFatalConnectionError)

/-! ## Operation handling (`OperationLoop::handle_operation`) -/

/-- A database statement invoked by a spawned worker task. `newConversation`
carries the three arguments passed at the call site in
`operation_loop.rs` (`username`, `choosee_username`, `conversation_id`). -/
inductive DbAction where
  | newConversation (chooser_username choosee_username conversation_id : String)
  | newMessage (conversation_id content : String) (from_chooser : Bool)

/-- A worker task spawned by `handle_operation` via `tokio::task::spawn`.
`getMessages` is the query task: it reads the database and replies on the
wire itself (`Response::Messages` on success, `Response::Error` plus a
non-fatal report on database failure). -/
inductive SpawnedTask where
  | publish (subject : String) (event : UserEvent)
  | dbWrite (action : DbAction)
  | getMessages (conversation_id : String) (take : I8) (after_sent_at : DTime)

/-- How a spawned task classifies its own failure when it reports it into the
error channel — read off from the task bodies in `handle_operation`:
publish failures become `NonFatal(NatsPublishError)`, database failures
become `NonFatal(DatabaseError)`. (Sink-send failures inside the query task
escalate to `Fatal(WebSocketError)` and are not modelled here.) -/
def SpawnedTask.onFailure : SpawnedTask → String → ConnectionError
  | .publish _ _, msg => .nonFatal (.natsPublishError msg)
  | .dbWrite _, msg => .nonFatal (.databaseError msg)
  | .getMessages _ _ _, msg => .nonFatal (.databaseError msg)

/-- An immediate effect of `handle_operation`: a synchronous send into the
error channel (`err_tx.send`), or a spawned worker task. -/
inductive Effect where
  | errSend (e : ConnectionError)
  | spawn (t : SpawnedTask)

/-- `OperationLoop::handle_operation`, as the ordered list of effects it
issues before returning. `none` models a panic inside the handler: the
`todo!()` in the `RegisterPresenceChoosee` arm, or a slice panic raised by
`get_role_of_username` / `get_choosee_hash` on a malformed conversation id.
`h` embeds the hash, `username` is `self.username`. -/
def handleOperation (h : String → String) (username : String) :
    Operation → Option (List Effect)
  | .query (.messages conversation_id take after_sent_at) => do
    let cid := ConversationId.from conversation_id
    let role ← cid.get_role_of_username h username
    if role = ConversationRole.notInConversation then
      pure [.errSend (.fatal (.forbidden
        "User attempted to get messages in conversation not belonging to"))]
    else
      pure [.spawn (.getMessages cid.asString take after_sent_at)]
  | .mutation (.choose content choosee_username) => do
    let cid := ConversationId.new h username choosee_username
    let user_event := UserEvent.chosen cid.asString content DTime.default
    let to_username_hash ← cid.get_choosee_hash
    pure [.spawn (.publish to_username_hash user_event),
          .spawn (.dbWrite (.newConversation username choosee_username cid.asString)),
          .spawn (.dbWrite (.newMessage cid.asString content true))]
  | .mutation (.send content conversation_id) => do
    let cid := ConversationId.from conversation_id
    let role ← cid.get_role_of_username h username
    match role with
    | .chooser => do
      let to_username_hash ← cid.get_choosee_hash
      let user_event := UserEvent.message cid.asString content DTime.default
      pure [.spawn (.publish to_username_hash user_event),
            .spawn (.dbWrite (.newMessage cid.asString content true))]
    | .choosee => do
      let to_username_hash ← cid.get_chooser_hash
      let user_event := UserEvent.message cid.asString content DTime.default
      pure [.spawn (.publish to_username_hash user_event),
            .spawn (.dbWrite (.newMessage cid.asString content false))]
    | .notInConversation =>
      pure [.errSend (.fatal (.forbidden
        "User attempted to send message to conversation not belonging to"))]
  | .mutation (.registerPresenceChoosee conversation_id _leaving) => do
    let cid := ConversationId.from conversation_id
    let role ← cid.get_role_of_username h username
    if role = ConversationRole.notInConversation ∨ role = ConversationRole.chooser then
      pure [.errSend (.fatal (.forbidden
        "User attempted to register choosee presence in conversation not not a choosee of"))]
    else
      none

/-! ## The operation loop select (`OperationLoop::handle`) -/

/-- One arrival at the operation loop's `select!`: a frame from the WebSocket
stream (`Ok` case of `user_rx.next()`), a stream read error (`Err` case), a
cancellation signal, or a classified error drained from the error channel.
The loop's own `err_tx.send` calls are recorded as `Effect.errSend` in the
output rather than re-queued, so the input list is the interleaving oracle. -/
inductive OpLoopIn where
  | frame (f : Frame)
  | wsErr (msg : String)
  | cancel
  | chanErr (e : ConnectionError)

/-- `OperationLoop::handle` over a list of select arrivals. Returns the
loop's result paired with the effects issued along the way; `none` models a
panic escaping `handle_operation`. An exhausted input list is the stream
yielding `None` (the `while let` ends, returning `Ok(())`). -/
def runOps (dtc : DtCodec) (h : String → String) (username : String) :
    List OpLoopIn → Option (Except FatalConnectionError Unit × List Effect)
  | [] => some (.ok (), [])
  | .cancel :: _ => some (.ok (), [])
  | .wsErr msg :: _ => some (.error (.webSocketError msg), [])
  | .chanErr (.fatal e) :: _ => some (.error e, [])
  | .chanErr (.nonFatal _) :: rest => runOps dtc h username rest
  | .frame f :: rest =>
    match f with
    | .text payload =>
      match payload.bind (decodeOperation dtc) with
      | some user_operation =>
        match handleOperation h username user_operation with
        | none => none
        | some effs =>
          (runOps dtc h username rest).map (fun r => (r.1, effs ++ r.2))
      | none =>
        (runOps dtc h username rest).map
          (fun r => (r.1, .errSend (.nonFatal (.unsupportedFormat "parse failure")) :: r.2))
    | .close (some close_frame) =>
      match close_frame.code with
      | .normal => some (.ok (), [])
      | .away => some (.ok (), [])
      | .other _ => some (.error (.unexpectedClose close_frame), [])
    | .close none => some (.ok (), [])
    | .binary => some (.error (.unsupportedProtocol f), [])
    | .ping => some (.error (.unsupportedProtocol f), [])
    | .pong => some (.error (.unsupportedProtocol f), [])

/-! ## The notification loop (`NotificationLoop::handle`) -/

/-- One arrival at the notification loop's `select!`: a bus message (carrying
the result of parsing its bytes as JSON) or a cancellation signal. -/
inductive NotifIn where
  | msg (payload : Option Json)
  | cancel

/-- An effect of the notification loop: the warning log for an invalid bus
payload, or a frame sent to the client through the shared sink. -/
inductive NotifEffect where
  | warn
  | sinkSend (event : UserEvent)

/-- `NotificationLoop::handle` over a list of select arrivals, after the
subscription has been opened. An exhausted input list is the subscription
stream terminating spontaneously, which the source treats as fatal. Sink
sends are recorded as effects (a sink failure would be fatal; it is outside
the claims modelled here). -/
def runNotif (dtc : DtCodec) :
    List NotifIn → Except FatalConnectionError Unit × List NotifEffect
  | [] => (.error .unexpectedNatsSubscriptionTerminate, [])
  | .cancel :: _ => (.ok (), [])
  | .msg payload :: rest =>
    match payload.bind (decodeUserEvent dtc) with
    | none =>
      let r := runNotif dtc rest
      (r.1, .warn :: r.2)
    | some user_event =>
      let r := runNotif dtc rest
      (r.1, .sinkSend user_event :: r.2)

/-! ## The connection supervisor (`Connection::handle`) -/

/-- Which of the two loops a wrapper task wraps. -/
inductive LoopId where
  | notifLoop
  | opLoop
deriving DecidableEq, Repr

/-- The loop the other wrapper cancels. -/
def LoopId.peer : LoopId → LoopId
  | .notifLoop => .opLoop
  | .opLoop => .notifLoop

/-- The channel state the supervisor owns: the two capacity-1 cancellation
channels (`true` once a cancel has been sent) and the capacity-1 result
channel's queue. -/
structure SupState where
  notifCancelSignalled : Bool
  opCancelSignalled : Bool
  results : List (Except FatalConnectionError Unit)

/-- The supervisor's initial channel state. -/
def SupState.init : SupState := ⟨false, false, []⟩

/-- Whether the cancellation channel of loop `l` has been signalled. -/
def SupState.cancelSignalled (s : SupState) : LoopId → Bool
  | .notifLoop => s.notifCancelSignalled
  | .opLoop => s.opCancelSignalled

/-- What the wrapper task around loop `l` does when its loop returns with
`r`: send a cancel into the peer loop's capacity-1 channel (a full channel
makes the send fail, which the source ignores), then send `r` into the
capacity-1 result channel (likewise ignoring failure). -/
def wrapperFinish (l : LoopId) (r : Except FatalConnectionError Unit) (s : SupState) :
    SupState :=
  let s1 : SupState :=
    match l.peer with
    | .notifLoop => { s with notifCancelSignalled := true }
    | .opLoop => { s with opCancelSignalled := true }
  { s1 with results := if s1.results.length < 1 then s1.results ++ [r] else s1.results }

/-- `Connection::handle`'s final `result_rx.recv().await`: the first result
sent into the capacity-1 result channel. -/
def superviseResult (s : SupState) : Option (Except FatalConnectionError Unit) :=
  s.results.head?

/-! ## Database facade constants (`db.rs`) -/

/-- `Database::current_timestamp`:
`Timestamp(Duration::milliseconds(DateTime::<Utc>::default().timestamp_millis()))`,
in epoch milliseconds. `new_message` binds this value as the `sent_at` it
stores. -/
def Database.current_timestamp : Int := DTime.default.millis

/-! ## Concrete instances used by witnesses and counterexamples -/

/-- A constant 22-character ASCII hash: the simplest function shape
`base64_encoded_md5_hash_with_secret` could take if every input collided. -/
def hConst : String → String := fun _ => "aaaaaaaaaaaaaaaaaaaaaa"

/-- A 22-character ASCII hash that separates the inputs `"v"` and `"w"` from
everything else. -/
def hMark : String → String := fun s =>
  (if s = "v" then "b" else if s = "w" then "c" else "a") ++ "aaaaaaaaaaaaaaaaaaaaa"

/-- A 44-byte conversation-id string that matches no output of `hConst`. -/
def bConst44 : String := "bbbbbbbbbbbbbbbbbbbbbbbbbbbbbbbbbbbbbbbbbbbb"

/-- Unary rendering of a natural number. -/
def natToStr (n : Nat) : String := String.mk (List.replicate n 'a')

/-- Inverse of `natToStr`. -/
def strToNat (s : String) : Option Nat :=
  if s.data.all (fun c => c == 'a') then some s.data.length else none

/-- The integers folded injectively onto the naturals. -/
def intToNat2 (n : Int) : Nat := if 0 ≤ n then 2 * n.toNat else 2 * (-n).toNat - 1

/-- Inverse of `intToNat2`. -/
def natToInt2 (k : Nat) : Int := if k % 2 = 0 then (k / 2 : Nat) else -((k + 1) / 2 : Nat)

/-- A concrete timestamp codec with the left-inverse property that the
chrono RFC 3339 codec provides, used to instantiate `DtCodec` hypotheses. -/
def dtCodecW : DtCodec :=
  ⟨fun t => natToStr (intToNat2 t.millis),
    fun s => (strToNat s).map (fun k => ⟨natToInt2 k⟩)⟩
theorem takeBytes_append (a b : List Char) : takeBytes (a ++ b) (utf8Len a) = some a := by
  induction a with
  | nil =>
    show takeBytes b 0 = some []
    rw [takeBytes.eq_def]; simp
  | cons c a ih =>
    have hpos := Char.utf8Size_pos c
    simp only [utf8Len, List.cons_append]
    rw [takeBytes]
    have hne : ¬ (c.utf8Size + utf8Len a = 0) := by omega
    simp only [hne, if_false]
    have hle : c.utf8Size ≤ c.utf8Size + utf8Len a := Nat.le_add_right _ _
    simp only [hle, if_true]
    have : c.utf8Size + utf8Len a - c.utf8Size = utf8Len a := by omega
    rw [this, ih]
    rfl

theorem dropBytes_append (a b : List Char) : dropBytes (a ++ b) (utf8Len a) = some b := by
  induction a with
  | nil =>
    show dropBytes b 0 = some b
    rw [dropBytes.eq_def]; simp
  | cons c a ih =>
    have hpos := Char.utf8Size_pos c
    simp only [utf8Len, List.cons_append]
    rw [dropBytes]
    have hne : ¬ (c.utf8Size + utf8Len a = 0) := by omega
    simp only [hne, if_false]
    have hle : c.utf8Size ≤ c.utf8Size + utf8Len a := Nat.le_add_right _ _
    simp only [hle, if_true]
    have : c.utf8Size + utf8Len a - c.utf8Size = utf8Len a := by omega
    rw [this, ih]

theorem takeBytes_none_of_lt (cs : List Char) (n : Nat) (hlt : utf8Len cs < n) :
    takeBytes cs n = none := by
  induction cs generalizing n with
  | nil =>
    rw [takeBytes]
    simp only [utf8Len] at hlt
    have : ¬ (n = 0) := by omega
    simp [this]
  | cons c cs ih =>
    rw [takeBytes]
    have hne : ¬ (n = 0) := by
      have := Nat.zero_le (utf8Len (c :: cs)); omega
    simp only [hne, if_false]
    by_cases hle : c.utf8Size ≤ n
    · simp only [hle, if_true]
      have : utf8Len cs < n - c.utf8Size := by
        simp only [utf8Len] at hlt; omega
      rw [ih _ this]; rfl
    · simp [hle]

theorem utf8Len_dropBytes (cs : List Char) (n : Nat) (rest : List Char)
    (hdrop : dropBytes cs n = some rest) : utf8Len rest + n = utf8Len cs := by
  induction cs generalizing n with
  | nil =>
    rw [dropBytes] at hdrop
    by_cases h0 : n = 0
    · simp [h0] at hdrop; subst h0; simp [← hdrop]
    · simp [h0] at hdrop
  | cons c cs ih =>
    rw [dropBytes] at hdrop
    by_cases h0 : n = 0
    · simp [h0] at hdrop; subst h0; simp [← hdrop]
    · simp only [h0, if_false] at hdrop
      by_cases hle : c.utf8Size ≤ n
      · simp only [hle, if_true] at hdrop
        have := ih _ hdrop
        simp only [utf8Len]
        omega
      · simp [hle] at hdrop

theorem dropBytes_dropBytes (cs : List Char) (m n : Nat) (rest : List Char)
    (hdrop : dropBytes cs m = some rest) :
    dropBytes cs (m + n) = dropBytes rest n := by
  induction cs generalizing m with
  | nil =>
    rw [dropBytes] at hdrop
    by_cases h0 : m = 0
    · simp [h0] at hdrop; subst h0; simp [← hdrop]
    · simp [h0] at hdrop
  | cons c cs ih =>
    rw [dropBytes] at hdrop
    by_cases h0 : m = 0
    · simp [h0] at hdrop; subst h0; simp [← hdrop]
    · simp only [h0, if_false] at hdrop
      by_cases hle : c.utf8Size ≤ m
      · simp only [hle, if_true] at hdrop
        rw [dropBytes]
        have hne : ¬ (m + n = 0) := by omega
        have hle' : c.utf8Size ≤ m + n := by omega
        simp only [hne, if_false, hle', if_true]
        have harith : m + n - c.utf8Size = (m - c.utf8Size) + n := by omega
        rw [harith]
        exact ih _ hdrop
      · simp [hle] at hdrop

theorem takeBytes_none_iff_dropBytes (cs : List Char) (n : Nat) :
    takeBytes cs n = none ↔ dropBytes cs n = none := by
  induction cs generalizing n with
  | nil =>
    rw [takeBytes, dropBytes]
  | cons c cs ih =>
    rw [takeBytes, dropBytes]
    by_cases h0 : n = 0
    · simp [h0]
    · simp only [h0, if_false]
      by_cases hle : c.utf8Size ≤ n
      · simp only [hle, if_true, Option.map_eq_none']
        exact ih _
      · simp [hle]

theorem dropBytes_zero (cs : List Char) : dropBytes cs 0 = some cs := by
  rw [dropBytes.eq_def]; simp

theorem new_data (h : String → String) (u v : String) :
    (ConversationId.new h u v).inner.data
      = (h u).data ++ ((h v).data ++ (timeSegment DTime.default).data) := by
  simp [ConversationId.new, String.data_append]

theorem get_chooser_hash_new (h : String → String)
    (hlen : ∀ s, utf8Len (h s).data = 22) (u v : String) :
    (ConversationId.new h u v).get_chooser_hash = some (h u) := by
  unfold ConversationId.get_chooser_hash byteSlice
  rw [new_data, dropBytes_zero]
  show (takeBytes _ (22 - 0)).map String.mk = _
  rw [show 22 - 0 = utf8Len (h u).data from by rw [hlen u]]
  rw [takeBytes_append]
  rfl

theorem get_choosee_hash_new (h : String → String)
    (hlen : ∀ s, utf8Len (h s).data = 22) (u v : String) :
    (ConversationId.new h u v).get_choosee_hash = some (h v) := by
  unfold ConversationId.get_choosee_hash byteSlice
  rw [new_data]
  rw [show (22 : Nat) = utf8Len (h u).data from (hlen u).symm]
  rw [dropBytes_append]
  show (takeBytes _ (44 - utf8Len (h u).data)).map String.mk = _
  rw [hlen u]
  show (takeBytes _ 22).map String.mk = _
  rw [show (22 : Nat) = utf8Len (h v).data from (hlen v).symm, takeBytes_append]
  rfl

theorem hMark_len : ∀ s, utf8Len (hMark s).data = 22 := by
  intro s
  unfold hMark
  split
  · decide
  · split <;> decide

theorem hConst_len : ∀ s, utf8Len (hConst s).data = 22 := fun s => by
  show utf8Len "aaaaaaaaaaaaaaaaaaaaaa".data = 22
  decide

theorem hConst_chars : ∀ s, (hConst s).length = 22 := fun s => by
  show ("aaaaaaaaaaaaaaaaaaaaaa" : String).length = 22
  decide

/-- Claim C1: when the caller's role in the named conversation resolves to
`NotInConversation`, each of the three conversation-naming operations
(messages query, send, registerPresenceChoosee) makes `handle_operation`
submit a single fatal `Forbidden` error to the error channel and return:
the effect list is exactly that one submission, so no task is spawned and
hence no DB write, no bus publish, and no wire reply occurs. -/
theorem unauthorized_operation_only_fatal_forbidden (h : String → String)
    (username conversation_id : String)
    (hrole : (ConversationId.from conversation_id).get_role_of_username h username
      = some ConversationRole.notInConversation) :
    (∀ take after_sent_at,
      handleOperation h username (.query (.messages conversation_id take after_sent_at))
        = some [.errSend (.fatal (.forbidden
            "User attempted to get messages in conversation not belonging to"))])
    ∧ (∀ content,
      handleOperation h username (.mutation (.send content conversation_id))
        = some [.errSend (.fatal (.forbidden
            "User attempted to send message to conversation not belonging to"))])
    ∧ (∀ leaving,
      handleOperation h username (.mutation (.registerPresenceChoosee conversation_id leaving))
        = some [.errSend (.fatal (.forbidden
            "User attempted to register choosee presence in conversation not not a choosee of"))]) := by
  refine ⟨fun take after_sent_at => ?_, fun content => ?_, fun leaving => ?_⟩ <;>
    simp [handleOperation, hrole]

/-- Witness for C1: a 44-byte id built from no hash of `"alice"` resolves to
`NotInConversation` under `hConst`, and the `Send` handler's only effect is
the fatal `Forbidden` submission. -/
theorem unauthorized_operation_only_fatal_forbidden_witness :
    (ConversationId.from bConst44).get_role_of_username hConst "alice"
      = some ConversationRole.notInConversation
    ∧ handleOperation hConst "alice" (.mutation (.send "hi" bConst44))
        = some [.errSend (.fatal (.forbidden
            "User attempted to send message to conversation not belonging to"))] :=
  ⟨by decide,
    (unauthorized_operation_only_fatal_forbidden hConst "alice" bConst44 (by decide)).2.1 "hi"⟩

/-- Claim C2 concerns the three `now` timestamps of the Choose/Send paths.
The source computes all three from `DateTime::<Utc>::default()` — the Unix
epoch — not from the current UTC time: every new conversation id ends in the
constant epoch hour bucket `"70110"` (`1970 % 100`, month `1`, day `1`,
hour `0`), `Database::current_timestamp` (the `sent_at` that `new_message`
stores) is always epoch millisecond `0`, and the `Chosen`/`Message` events
published by the handlers carry `sent_at = DateTime::default()`. This
theorem evidences the divergence by evaluating the code's behavior. -/
theorem epoch_not_now_stamps :
    (∀ h u v, (ConversationId.new h u v).inner = h u ++ h v ++ "70110")
    ∧ timeSegment DTime.default = "70110"
    ∧ DTime.default.year = 1970 ∧ DTime.default.month = 1
    ∧ DTime.default.day = 1 ∧ DTime.default.hour = 0
    ∧ Database.current_timestamp = 0
    ∧ handleOperation hConst "A" (.mutation (.choose "hi" "B"))
        = some [.spawn (.publish (hConst "B")
                  (.chosen (ConversationId.new hConst "A" "B").asString "hi" DTime.default)),
                .spawn (.dbWrite (.newConversation "A" "B"
                  (ConversationId.new hConst "A" "B").asString)),
                .spawn (.dbWrite (.newMessage
                  (ConversationId.new hConst "A" "B").asString "hi" true))]
    ∧ handleOperation hConst "A"
        (.mutation (.send "hi" "aaaaaaaaaaaaaaaaaaaaaaaaaaaaaaaaaaaaaaaaaaaa"))
        = some [.spawn (.publish "aaaaaaaaaaaaaaaaaaaaaa"
                  (.message "aaaaaaaaaaaaaaaaaaaaaaaaaaaaaaaaaaaaaaaaaaaa" "hi" DTime.default)),
                .spawn (.dbWrite (.newMessage
                  "aaaaaaaaaaaaaaaaaaaaaaaaaaaaaaaaaaaaaaaaaaaa" "hi" true))] := by
  refine ⟨fun h u v => ?_, by decide, by decide, by decide, by decide, by decide, by decide,
    ?_, ?_⟩
  · show h u ++ h v ++ timeSegment DTime.default = h u ++ h v ++ "70110"
    rw [show timeSegment DTime.default = "70110" from by decide]
  · rfl
  · rfl

/-- Claim C3: the `Choose` handler fans out exactly three spawned tasks, in
source spawn order — a bus publish of the `Chosen` event to the subject
equal to the conversation id's choosee hash, `new_conversation` with the
chooser username, choosee username and new conversation id (the three
arguments of the call site), and `new_message` with the conversation id, the
content and `from_chooser = true` — and each of the three tasks reports its
own failure as non-fatal. -/
theorem choose_fans_out_three_tasks (h : String → String)
    (hlen : ∀ s, utf8Len (h s).data = 22) (username content choosee_username : String) :
    handleOperation h username (.mutation (.choose content choosee_username))
      = some [.spawn (.publish (h choosee_username)
                (.chosen (ConversationId.new h username choosee_username).asString
                  content DTime.default)),
              .spawn (.dbWrite (.newConversation username choosee_username
                (ConversationId.new h username choosee_username).asString)),
              .spawn (.dbWrite (.newMessage
                (ConversationId.new h username choosee_username).asString content true))]
    ∧ (∀ subject event msg,
        (SpawnedTask.publish subject event).onFailure msg
          = .nonFatal (.natsPublishError msg))
    ∧ (∀ action msg,
        (SpawnedTask.dbWrite action).onFailure msg = .nonFatal (.databaseError msg)) := by
  refine ⟨?_, fun _ _ _ => rfl, fun _ _ => rfl⟩
  simp [handleOperation, get_choosee_hash_new h hlen]

/-- Witness for C3: the concrete `Choose` of `"hello"` towards `"B"` issued
by `"A"` under `hConst`. -/
theorem choose_fans_out_three_tasks_witness :
    (∀ s, utf8Len (hConst s).data = 22)
    ∧ handleOperation hConst "A" (.mutation (.choose "hello" "B"))
      = some [.spawn (.publish (hConst "B")
                (.chosen (ConversationId.new hConst "A" "B").asString "hello" DTime.default)),
              .spawn (.dbWrite (.newConversation "A" "B"
                (ConversationId.new hConst "A" "B").asString)),
              .spawn (.dbWrite (.newMessage
                (ConversationId.new hConst "A" "B").asString "hello" true))] :=
  ⟨hConst_len,
    (choose_fans_out_three_tasks hConst hConst_len "A" "hello" "B").1⟩

/-- Claim C4 (amended): with every hash output 22 bytes long, the initiator
of `ConversationId::new(u, v)` always resolves as `Chooser`; `v` resolves as
`Choosee` provided `hash(v) ≠ hash(u)`; and a third username `w` resolves as
`NotInConversation` provided `hash(w)` differs from both slot hashes. The
two added hypotheses are forced: `get_role_of_username` compares the chooser
slot first, so under a hash collision `v` (or `w`) resolves as `Chooser`. -/
theorem role_resolution_on_new (h : String → String)
    (hlen : ∀ s, utf8Len (h s).data = 22) (u v w : String) :
    (ConversationId.new h u v).get_role_of_username h u = some ConversationRole.chooser
    ∧ (h v ≠ h u →
        (ConversationId.new h u v).get_role_of_username h v = some ConversationRole.choosee)
    ∧ (h w ≠ h u → h w ≠ h v →
        (ConversationId.new h u v).get_role_of_username h w
          = some ConversationRole.notInConversation) := by
  unfold ConversationId.get_role_of_username
  rw [get_chooser_hash_new h hlen, get_choosee_hash_new h hlen]
  refine ⟨by simp, fun hne => ?_, fun hne1 hne2 => ?_⟩
  · simp [Option.bind]
    exact fun hc => hne hc.symm
  · simp [Option.bind]
    rw [if_neg (fun hc => hne1 hc.symm), if_neg (fun hc => hne2 hc.symm)]

/-- Witness for C4 (amended): under `hMark` — whose outputs on `"u"`, `"v"`
and `"w"` are pairwise distinct 22-byte strings — the three roles resolve as
the amended claim states. -/
theorem role_resolution_on_new_witness :
    (ConversationId.new hMark "u" "v").get_role_of_username hMark "u"
      = some ConversationRole.chooser
    ∧ (ConversationId.new hMark "u" "v").get_role_of_username hMark "v"
      = some ConversationRole.choosee
    ∧ (ConversationId.new hMark "u" "v").get_role_of_username hMark "w"
      = some ConversationRole.notInConversation :=
  ⟨(role_resolution_on_new hMark hMark_len "u" "v" "w").1,
   (role_resolution_on_new hMark hMark_len "u" "v" "w").2.1 (by decide),
   (role_resolution_on_new hMark hMark_len "u" "v" "w").2.2 (by decide) (by decide)⟩

/-- Claim C4 as stated is false on the code: with the hash `hConst`
(22 bytes for every input — the claim explicitly declines to assume
`hash(u) ≠ hash(v)`) and the distinct usernames `"u" ≠ "v"`,
`get_role_of_username` resolves the choosee `"v"` as `Chooser`, not
`Choosee`, because the chooser slot is compared first. -/
theorem role_of_choosee_collision_counterexample :
    (∀ s, utf8Len (hConst s).data = 22)
    ∧ ("u" : String) ≠ "v"
    ∧ (ConversationId.new hConst "u" "v").get_role_of_username hConst "v"
        = some ConversationRole.chooser
    ∧ ¬ ((ConversationId.new hConst "u" "v").get_role_of_username hConst "v"
        = some ConversationRole.choosee) :=
  ⟨hConst_len, by decide, by decide, by decide⟩

/-- Claim C5: the stored string of `ConversationId::new(u, v)` carries
`hash(u)` as its characters `[0..22)` and `hash(v)` as its characters
`[22..44)`, and the two accessors return exactly the fixed-offset byte
slices `[0..22)` and `[22..44)`, i.e. those two hashes. -/
theorem conversation_id_layout (h : String → String)
    (hchars : ∀ s, (h s).length = 22) (hlen : ∀ s, utf8Len (h s).data = 22)
    (u v : String) :
    (ConversationId.new h u v).inner.data.take 22 = (h u).data
    ∧ ((ConversationId.new h u v).inner.data.drop 22).take 22 = (h v).data
    ∧ (ConversationId.new h u v).get_chooser_hash = some (h u)
    ∧ (ConversationId.new h u v).get_choosee_hash = some (h v) := by
  have hu : (h u).data.length = 22 := hchars u
  have hv : (h v).data.length = 22 := hchars v
  refine ⟨?_, ?_, get_chooser_hash_new h hlen u v, get_choosee_hash_new h hlen u v⟩
  · rw [new_data, List.take_left' hu]
  · rw [new_data, List.drop_left' hu, List.take_left' hv]

/-- Witness for C5 at `hConst`, `u = "u"`, `v = "v"`. -/
theorem conversation_id_layout_witness :
    (ConversationId.new hConst "u" "v").inner.data.take 22 = (hConst "u").data
    ∧ (ConversationId.new hConst "u" "v").get_choosee_hash = some (hConst "v") :=
  ⟨(conversation_id_layout hConst hConst_chars hConst_len "u" "v").1,
   (conversation_id_layout hConst hConst_chars hConst_len "u" "v").2.2.2⟩

/-- Claim C6: an undecodable payload never terminates either loop. A text
frame whose parse as `Operation` fails makes the operation loop prepend a
non-fatal `UnsupportedFormat` submission and continue exactly as it would on
the remaining input (so a following well-formed operation is handled
normally); a bus message whose decode as `UserEvent` fails makes the
notification loop prepend a warning log and continue on the remaining
input. -/
theorem undecodable_payload_never_terminates (dtc : DtCodec) (h : String → String)
    (username : String) (payload busPayload : Option Json)
    (hbad : payload.bind (decodeOperation dtc) = none)
    (hbadBus : busPayload.bind (decodeUserEvent dtc) = none)
    (rest : List OpLoopIn) (restN : List NotifIn) :
    runOps dtc h username (.frame (.text payload) :: rest)
      = (runOps dtc h username rest).map
          (fun r => (r.1, .errSend (.nonFatal (.unsupportedFormat "parse failure")) :: r.2))
    ∧ runNotif dtc (.msg busPayload :: restN)
      = ((runNotif dtc restN).1, .warn :: (runNotif dtc restN).2) := by
  constructor
  · simp [runOps, hbad]
  · simp [runNotif, hbadBus]

/-- Witness for C6: a non-JSON text frame (`payload = none`) followed by the
end of the stream leaves the operation loop returning success with the
single non-fatal submission, and a non-JSON bus payload followed by a cancel
leaves the notification loop returning success after one warning. -/
theorem undecodable_payload_never_terminates_witness :
    ((none : Option Json).bind (decodeOperation dtCodecW) = none)
    ∧ runOps dtCodecW hConst "alice" [.frame (.text none)]
        = some (.ok (), [.errSend (.nonFatal (.unsupportedFormat "parse failure"))])
    ∧ runNotif dtCodecW [.msg none, .cancel] = (.ok (), [.warn]) := by
  refine ⟨rfl, ?_, ?_⟩
  · rw [(undecodable_payload_never_terminates dtCodecW hConst "alice" none none rfl rfl
      [] [.cancel]).1]
    rfl
  · rw [(undecodable_payload_never_terminates dtCodecW hConst "alice" none none rfl rfl
      [] [.cancel]).2]
    rfl

/-- Claim C7: the operation loop's frame dispatch — a close frame with code
`Normal` or `Away`, or with no code, returns success; a close frame with any
other code returns the fatal `UnexpectedClose` carrying that close frame;
any frame that is neither text nor close returns the fatal
`UnsupportedProtocol` carrying the frame. -/
theorem frame_dispatch (dtc : DtCodec) (h : String → String) (username : String)
    (rest : List OpLoopIn) :
    (∀ reason, runOps dtc h username
        (.frame (.close (some ⟨.normal, reason⟩)) :: rest) = some (.ok (), []))
    ∧ (∀ reason, runOps dtc h username
        (.frame (.close (some ⟨.away, reason⟩)) :: rest) = some (.ok (), []))
    ∧ runOps dtc h username (.frame (.close none) :: rest) = some (.ok (), [])
    ∧ (∀ code reason, runOps dtc h username
        (.frame (.close (some ⟨.other code, reason⟩)) :: rest)
          = some (.error (.unexpectedClose ⟨.other code, reason⟩), []))
    ∧ runOps dtc h username (.frame .binary :: rest)
        = some (.error (.unsupportedProtocol .binary), [])
    ∧ runOps dtc h username (.frame .ping :: rest)
        = some (.error (.unsupportedProtocol .ping), [])
    ∧ runOps dtc h username (.frame .pong :: rest)
        = some (.error (.unsupportedProtocol .pong), []) := by
  exact ⟨fun _ => rfl, fun _ => rfl, rfl, fun _ _ => rfl, rfl, rfl, rfl⟩

/-- Claim C8: when a loop returns, its wrapper signals the peer loop's
capacity-1 cancellation channel; a cancelled loop returns success from its
select immediately, issuing no further effect; and the supervisor's single
`recv` returns the first loop's outcome, the second being discarded by the
full capacity-1 result channel. Quantified over which loop finishes first
and both outcomes. -/
theorem mutual_cancellation (l : LoopId) (r1 r2 : Except FatalConnectionError Unit)
    (dtc : DtCodec) (h : String → String) (username : String)
    (rest : List OpLoopIn) (restN : List NotifIn) :
    (wrapperFinish l r1 SupState.init).cancelSignalled l.peer = true
    ∧ superviseResult (wrapperFinish l.peer r2 (wrapperFinish l r1 SupState.init)) = some r1
    ∧ runOps dtc h username (.cancel :: rest) = some (.ok (), [])
    ∧ runNotif dtc (.cancel :: restN) = (.ok (), []) := by
  refine ⟨?_, ?_, rfl, rfl⟩ <;>
    cases l <;>
      simp [wrapperFinish, SupState.init, SupState.cancelSignalled, LoopId.peer,
        superviseResult]

theorem strToNat_natToStr (n : Nat) : strToNat (natToStr n) = some n := by
  simp [natToStr, strToNat, List.all_eq_true, List.mem_replicate]

theorem natToInt2_intToNat2 (n : Int) : natToInt2 (intToNat2 n) = n := by
  unfold intToNat2 natToInt2
  split_ifs <;> omega

theorem dtCodecW_leftInverse (d : DTime) :
    dtCodecW.dtparse (dtCodecW.render d) = some d := by
  simp [dtCodecW, strToNat_natToStr, natToInt2_intToNat2]

/-- Claim C9: decoding the serde encoding of any `Operation` value — each
`Query::Messages`, `Mutation::Choose`, `Mutation::Send` and
`Mutation::RegisterPresenceChoosee` — yields the value back, for any
timestamp codec that is itself left-invertible (the contract of the external
chrono serde codec the derives delegate to). -/
theorem operation_roundtrip (dtc : DtCodec)
    (hdt : ∀ d, dtc.dtparse (dtc.render d) = some d) (x : Operation) :
    decodeOperation dtc (encodeOperation dtc x) = some x := by
  cases x with
  | query q =>
    cases q with
    | messages cid take after =>
      have hrange := take.property
      simp [encodeOperation, encodeQuery, decodeOperation, decodeQuery, List.lookup,
        hrange, hdt]
  | mutation m =>
    cases m with
    | choose content choosee =>
      simp [encodeOperation, encodeMutation, decodeOperation, decodeQuery, decodeMutation,
        List.lookup]
    | send content cid =>
      simp [encodeOperation, encodeMutation, decodeOperation, decodeQuery, decodeMutation,
        List.lookup]
    | registerPresenceChoosee cid leaving =>
      simp [encodeOperation, encodeMutation, decodeOperation, decodeQuery, decodeMutation,
        List.lookup]

/-- Witness for C9 at one query and one mutation, under the concrete
left-invertible timestamp codec `dtCodecW`. -/
theorem operation_roundtrip_witness :
    decodeOperation dtCodecW (encodeOperation dtCodecW
        (.query (.messages "c" ⟨20, by decide⟩ ⟨5⟩)))
      = some (.query (.messages "c" ⟨20, by decide⟩ ⟨5⟩))
    ∧ decodeOperation dtCodecW (encodeOperation dtCodecW (.mutation (.choose "hi" "B")))
      = some (.mutation (.choose "hi" "B")) :=
  ⟨operation_roundtrip dtCodecW dtCodecW_leftInverse _,
   operation_roundtrip dtCodecW dtCodecW_leftInverse _⟩

/-- Claim C10: `ConversationId::from` performs no validation, so for every
client-supplied conversation id shorter than 44 bytes, or whose byte offset
22 or 44 is not a UTF-8 character boundary, the fixed-offset hash accessors
hit a slice panic (modelled as `none`), `get_role_of_username` therefore
panics for every caller instead of classifying it as `NotInConversation`,
and a messages query or a send naming such an id reaches the panic inside
`handle_operation`. -/
theorem malformed_conversation_id_panics (h : String → String)
    (username content : String) (s : String)
    (hbad : utf8Len s.data < 44 ∨ ¬ isCharBoundary s 22 ∨ ¬ isCharBoundary s 44) :
    ((ConversationId.from s).get_chooser_hash = none
      ∨ (ConversationId.from s).get_choosee_hash = none)
    ∧ (∀ u, (ConversationId.from s).get_role_of_username h u = none)
    ∧ (∀ take after_sent_at,
        handleOperation h username (.query (.messages s take after_sent_at)) = none)
    ∧ handleOperation h username (.mutation (.send content s)) = none := by
  have hchoosee : (ConversationId.from s).get_choosee_hash = none := by
    unfold ConversationId.get_choosee_hash byteSlice
    rcases hbad with hlt | hb22 | hb44
    · cases hdrop : dropBytes s.data 22 with
      | none => simp [ConversationId.from, hdrop]
      | some rest =>
        have hlen := utf8Len_dropBytes _ _ _ hdrop
        have htake : takeBytes rest (44 - 22) = none :=
          takeBytes_none_of_lt _ _ (by omega)
        simp [ConversationId.from, hdrop, htake]
    · have hdrop : dropBytes s.data 22 = none := by
        unfold isCharBoundary at hb22
        cases hd : dropBytes s.data 22 with
        | none => rfl
        | some r => rw [hd] at hb22; simp at hb22
      simp [ConversationId.from, hdrop]
    · unfold isCharBoundary at hb44
      have hdrop44 : dropBytes s.data 44 = none := by
        cases hd : dropBytes s.data 44 with
        | none => rfl
        | some r => rw [hd] at hb44; simp at hb44
      cases hdrop : dropBytes s.data 22 with
      | none => simp [ConversationId.from, hdrop]
      | some rest =>
        have hsplit := dropBytes_dropBytes s.data 22 22 rest hdrop
        rw [show (22 + 22 : Nat) = 44 from rfl, hdrop44] at hsplit
        have htake : takeBytes rest (44 - 22) = none :=
          (takeBytes_none_iff_dropBytes _ _).2 hsplit.symm
        simp [ConversationId.from, hdrop, htake]
  have hrole : ∀ u, (ConversationId.from s).get_role_of_username h u = none := by
    intro u
    unfold ConversationId.get_role_of_username
    cases hch : (ConversationId.from s).get_chooser_hash with
    | none => simp [hch]
    | some a => simp [hch, hchoosee]
  refine ⟨Or.inr hchoosee, hrole, fun take after_sent_at => ?_, ?_⟩ <;>
    simp [handleOperation, hrole]

/-- Witness for C10: the 5-byte id `"short"`. -/
theorem malformed_conversation_id_panics_witness :
    (utf8Len "short".data < 44 ∨ ¬ isCharBoundary "short" 22 ∨ ¬ isCharBoundary "short" 44)
    ∧ (ConversationId.from "short").get_role_of_username hConst "bob" = none
    ∧ handleOperation hConst "bob" (.mutation (.send "hi" "short")) = none :=
  ⟨Or.inl (by decide),
   (malformed_conversation_id_panics hConst "bob" "hi" "short" (Or.inl (by decide))).2.1 "bob",
   (malformed_conversation_id_panics hConst "bob" "hi" "short" (Or.inl (by decide))).2.2.2⟩
